import Mathlib

/-!
Shallow embedding of the analysis orchestration engine of the Roundtable
backend, translated from `app/services/analysis_service.py`,
`app/services/ai_backends.py`, `app/models/models.py` and
`app/core/config.py`.

Modelling conventions:
- Python strings used only as opaque values (ids, names, statuses, error
  messages) are Lean `String`; the document text handed to the prompt
  builder is modelled as `List Char`, matching Python slicing over code
  points.
- JSON payloads that the engine never inspects (the dimension-score and
  top-issues blobs) are abstracted as `String`.
- The database session is explicit state: each operation takes the records
  it touches and returns the updated records.  Commits of the collaborator
  are assumed durable and never failing, as the persistence collaborator
  contract states.
- A raised Python exception is an `Except.error` carrying the exception
  message; `asyncio.sleep` calls are recorded in an explicit trace list.
- Timestamps are `Option Nat`; the service never writes `completed_at`,
  which the embedding makes visible.
-/

namespace Roundtable

/-- Configuration value `Settings.AI_TIMEOUT` from `app/core/config.py`. -/
def AI_TIMEOUT : Nat := 120

/-- Configuration value `Settings.AI_RETRY_ATTEMPTS` from `app/core/config.py`. -/
def AI_RETRY_ATTEMPTS : Nat := 3

/-- Configuration value `Settings.DEFAULT_AI_BACKEND` from `app/core/config.py`. -/
def DEFAULT_AI_BACKEND : String := "claude"

/-- The `PersonaProfile` model fields the engine reads
(`app/models/models.py`, class `PersonaProfile`): `id`, `name` and the
free-form `profile_json` payload (abstracted as a string). -/
structure Persona where
  id : String
  name : String
  profile_json : String
  deriving Repr, DecidableEq

/-- The parsed backend response, mirroring exactly the keys that
`analysis_service.py` reads off the decoded JSON dict: `result.get` with
no default yields an `Option`, `result.get` with a default yields the
defaulted type. -/
structure EvalResult where
  dimension_scores : Option String
  top_3_issues : Option String
  what_works_well : List String
  overall_verdict : String
  rewritten_headline_suggestion : String
  deriving Repr, DecidableEq

/-- The dict stored into `analysis.rewritten_suggestions_json` by
`_run_sequential_analyses` and `retry_failed_analysis`. -/
structure RewrittenSuggestions where
  what_works_well : List String
  overall_verdict : String
  rewritten_headline : String
  deriving Repr, DecidableEq

/-- The `Analysis` model (`app/models/models.py`, class `Analysis`): one
evaluation unit.  `status` ranges over the strings pending, running,
completed, failed; `completed_at` is nullable and, as the theorems below
show, never written by the service. -/
structure Analysis where
  session_id : String
  persona_id : String
  status : String
  score_json : Option String
  top_issues_json : Option String
  rewritten_suggestions_json : Option RewrittenSuggestions
  error_message : Option String
  completed_at : Option Nat
  deriving Repr, DecidableEq

/-- A freshly created analysis record, as built in `analyze_document`:
`Analysis(session_id=..., persona_id=..., status="pending")` with all
nullable columns at their null defaults. -/
def newAnalysis (sid pid : String) : Analysis :=
  { session_id := sid, persona_id := pid, status := "pending",
    score_json := none, top_issues_json := none,
    rewritten_suggestions_json := none, error_message := none,
    completed_at := none }

/-- The `Session` model fields the engine touches (`app/models/models.py`,
class `Session`, imported as `SessionModel` in the service). -/
structure SessionModel where
  id : String
  status : String
  deriving Repr, DecidableEq

/-- One entry of the `results` list built by `_run_sequential_analyses`
and returned by `retry_failed_analysis`: the per-persona outcome dict.
The completed dict carries a `result` key and no `error` key; the failed
dict carries an `error` key and no `result` key. -/
structure ResultEntry where
  persona_id : String
  persona_name : String
  status : String
  result : Option EvalResult
  error : Option String
  deriving Repr, DecidableEq

/-- Outcome of one full `backend.run_analysis` call as observed by the
service layer: either the parsed result or the message of the raised
exception. -/
inductive BackendOutcome where
  | ok (r : EvalResult)
  | err (e : String)
  deriving Repr, DecidableEq

/-- One iteration of the loop body of `_run_sequential_analyses`
(`analysis_service.py` lines 106-147): set the unit running, invoke the
backend, and on success store the result fields, on failure store the
error message.  Total by construction: the Python `except Exception`
captures every backend failure into the unit record, and the function
returns the updated record plus the per-persona result dict. -/
def runUnitStep (o : BackendOutcome) (a : Analysis) (p : Persona) :
    Analysis × ResultEntry :=
  let a1 := { a with status := "running" }
  match o with
  | .ok r =>
      let a2 := { a1 with
        status := "completed",
        score_json := r.dimension_scores,
        top_issues_json := r.top_3_issues,
        rewritten_suggestions_json := some
          { what_works_well := r.what_works_well,
            overall_verdict := r.overall_verdict,
            rewritten_headline := r.rewritten_headline_suggestion } }
      (a2, { persona_id := p.id, persona_name := p.name,
             status := "completed", result := some r, error := none })
  | .err e =>
      let a2 := { a1 with status := "failed", error_message := some e }
      (a2, { persona_id := p.id, persona_name := p.name,
             status := "failed", result := none, error := some e })

/-- `_run_sequential_analyses` (`analysis_service.py` lines 98-149): run
the units strictly in list order, one at a time, collecting the updated
unit records and the per-persona result dicts. -/
def runSequentialAnalyses (backend : String → String → BackendOutcome)
    (pairs : List (Analysis × Persona)) (documentText : String) :
    List Analysis × List ResultEntry :=
  match pairs with
  | [] => ([], [])
  | (a, p) :: rest =>
      let step := runUnitStep (backend p.profile_json documentText) a p
      let tail := runSequentialAnalyses backend rest documentText
      (step.1 :: tail.1, step.2 :: tail.2)

/-- The job-status computation inlined in `analyze_document`
(`analysis_service.py` lines 78-88): count failed entries; all failed
gives failed, some failed gives partial, none failed gives completed. -/
def aggregateResults (results : List ResultEntry) : String :=
  let failed_count := results.countP (fun r => r.status == "failed")
  if failed_count = results.length then "failed"
  else if failed_count > 0 then "partial"
  else "completed"

/-- `_update_session_status` (`analysis_service.py` lines 229-250),
re-invoked after a unit retry: recompute the session status from the
stored unit statuses; the session is returned unchanged when the unit
list is empty or when no branch applies. -/
def updateSessionStatus (session : SessionModel) (analyses : List Analysis) :
    SessionModel :=
  if analyses.isEmpty then session
  else
    let failed_count := analyses.countP (fun a => a.status == "failed")
    let completed_count := analyses.countP (fun a => a.status == "completed")
    if failed_count = analyses.length then { session with status := "failed" }
    else if failed_count > 0 then { session with status := "partial" }
    else if completed_count = analyses.length then
      { session with status := "completed" }
    else session

/-- The aggregate record returned by `analyze_document` on the non-raising
path (`analysis_service.py` lines 90-96). -/
structure JobOutcome where
  session_id : String
  total_personas : Nat
  completed : Nat
  failed : Nat
  results : List ResultEntry
  deriving Repr

/-- Full observable effect of one `analyze_document` call: the final
session record, the unit records it created, and either the returned
outcome dict or the message of the raised exception. -/
structure JobRun where
  session : SessionModel
  analyses : List Analysis
  outcome : Except String JobOutcome
  deriving Repr

/-- `analyze_document` (`analysis_service.py` lines 28-96): mark the
session analyzing, resolve the selected persona ids (unresolved ids are
skipped), raise when none resolve, otherwise create one pending unit per
resolved persona in input order, run them sequentially, and set the
session status from the failed count. -/
def analyzeDocument (resolve : String → Option Persona)
    (backend : String → String → BackendOutcome)
    (session : SessionModel) (documentText : String)
    (selected_persona_ids : List String) : JobRun :=
  let session1 := { session with status := "analyzing" }
  let personas := selected_persona_ids.filterMap resolve
  if personas.isEmpty then
    { session := { session1 with status := "failed" }, analyses := [],
      outcome := Except.error ("No valid personas selected") }
  else
    let pairs := personas.map (fun p => (newAnalysis session1.id p.id, p))
    let run := runSequentialAnalyses backend pairs documentText
    let results := run.2
    let failed_count := results.countP (fun r => r.status == "failed")
    let completed_count := results.countP (fun r => r.status == "completed")
    let session2 :=
      if failed_count = results.length then { session1 with status := "failed" }
      else if failed_count > 0 then { session1 with status := "partial" }
      else { session1 with status := "completed" }
    { session := session2, analyses := run.1,
      outcome := Except.ok
        { session_id := session1.id, total_personas := personas.length,
          completed := completed_count, failed := failed_count,
          results := results } }

/-- The lookup predicate of `retry_failed_analysis`: the first analysis
record matching the session id and persona id. -/
def analysisMatch (sid pid : String) (a : Analysis) : Bool :=
  a.session_id == sid && a.persona_id == pid

/-- Replace the first element satisfying the predicate, modelling the
in-place mutation of the single record returned by the ORM query. -/
def setFirst (p : Analysis → Bool) (v : Analysis) : List Analysis → List Analysis
  | [] => []
  | x :: xs => if p x then v :: xs else x :: setFirst p v xs

/-- Net effect on the unit record of the try block of
`retry_failed_analysis` (`analysis_service.py` lines 184-227): reset to
running with the error cleared, then either store the result fields on
success or store the failure message. -/
def retryUnitStep (o : BackendOutcome) (a : Analysis) : Analysis :=
  let a1 := { a with status := "running", error_message := none }
  match o with
  | .ok r =>
      { a1 with
        status := "completed",
        score_json := r.dimension_scores,
        top_issues_json := r.top_3_issues,
        rewritten_suggestions_json := some
          { what_works_well := r.what_works_well,
            overall_verdict := r.overall_verdict,
            rewritten_headline := r.rewritten_headline_suggestion } }
  | .err e => { a1 with status := "failed", error_message := some e }

/-- `retry_failed_analysis` (`analysis_service.py` lines 161-227): find
the unit, require status failed, resolve the persona, re-run the backend;
on success also recompute the session status over the full unit set.  The
failure of the re-run is returned as a failed result dict, not raised. -/
def retryFailedAnalysis (resolve : String → Option Persona)
    (backend : String → String → BackendOutcome)
    (session : SessionModel) (analyses : List Analysis)
    (persona_id : String) (documentText : String) :
    SessionModel × List Analysis × Except String ResultEntry :=
  match analyses.find? (analysisMatch session.id persona_id) with
  | none =>
      (session, analyses, Except.error
        ("Analysis not found for session " ++ session.id ++ ", persona " ++ persona_id))
  | some a =>
    if a.status != "failed" then
      (session, analyses, Except.error ("Analysis is not in failed state"))
    else
      match resolve persona_id with
      | none => (session, analyses, Except.error ("Persona not found: " ++ persona_id))
      | some p =>
        let o := backend p.profile_json documentText
        let a2 := retryUnitStep o a
        let analyses2 := setFirst (analysisMatch session.id persona_id) a2 analyses
        match o with
        | .ok r =>
            (updateSessionStatus session analyses2, analyses2,
             Except.ok { persona_id := p.id, persona_name := p.name,
                         status := "completed", result := some r, error := none })
        | .err e =>
            (session, analyses2,
             Except.ok { persona_id := p.id, persona_name := p.name,
                         status := "failed", result := none, error := some e })

/-- Per-attempt behaviour of the external process from the point of view
of the retry loop in `ClaudeCodeBackend.run_analysis`: a timeout of the
awaited subprocess, a non-zero exit (raised as a generic exception with
the Claude Code failed message), an unparseable response (raised as a
generic exception), or a parsed result. -/
inductive AttemptOutcome where
  | timeout
  | procFailure (msg : String)
  | parseFailure
  | ok (r : EvalResult)
  deriving Repr, DecidableEq

/-- The retry loop of `ClaudeCodeBackend.run_analysis`
(`ai_backends.py` lines 91-135), as the loop `for attempt in range(m)`
with `remaining = m - attempt` as fuel.  Returns the result or raised
message, the number of attempts made, and the trace of backoff sleeps in
seconds.  Faithful detail: the `asyncio.TimeoutError` handler performs no
sleep; only the generic exception handler sleeps `2 ** attempt`. -/
def runAnalysisGo (outcome : Nat → AttemptOutcome) (m : Nat) :
    Nat → Nat → List Nat → Except String EvalResult × Nat × List Nat
  | 0, attempt, sleeps => (Except.error ("Failed after all retries"), attempt, sleeps)
  | remaining + 1, attempt, sleeps =>
    match outcome attempt with
    | .ok r => (Except.ok r, attempt + 1, sleeps)
    | .timeout =>
        if attempt = m - 1 then
          (Except.error ("Analysis timed out after all retries"), attempt + 1, sleeps)
        else runAnalysisGo outcome m remaining (attempt + 1) sleeps
    | .procFailure msg =>
        if attempt = m - 1 then
          (Except.error ("Claude Code failed: " ++ msg), attempt + 1, sleeps)
        else runAnalysisGo outcome m remaining (attempt + 1) (sleeps ++ [2 ^ attempt])
    | .parseFailure =>
        if attempt = m - 1 then
          (Except.error ("Could not parse JSON response"), attempt + 1, sleeps)
        else runAnalysisGo outcome m remaining (attempt + 1) (sleeps ++ [2 ^ attempt])

/-- `ClaudeCodeBackend.run_analysis` with `settings.AI_RETRY_ATTEMPTS = m`:
start the loop at attempt 0 with an empty sleep trace. -/
def runAnalysis (outcome : Nat → AttemptOutcome) (m : Nat) :
    Except String EvalResult × Nat × List Nat :=
  runAnalysisGo outcome m m 0 []

/-- Literal prompt text of `ClaudeCodeBackend._build_prompt` before the
persona profile dump (`ai_backends.py` line 39). -/
def promptPart1 : List Char := ("<persona>\n").toList

/-- Literal prompt text between the persona profile dump and the
truncated document (`ai_backends.py` lines 41-48). -/
def promptPart2 : List Char :=
  ("\n</persona>\n\n<role_instruction>\nYou are embodying the persona described above. You are attending a marketing review roundtable. Your job is to critically evaluate the following marketing content from your professional perspective. Be direct. Be specific. Do not soften your feedback. The team wants honest, constructive criticism that will make their marketing better — not validation.\n</role_instruction>\n\n<marketing_content>\n").toList

/-- Literal prompt text between the truncated document and the persona
role interpolation (`ai_backends.py` lines 48-64). -/
def promptPart3 : List Char :=
  ("  <!-- Limit to avoid token limits -->\n</marketing_content>\n\n<evaluation_framework>\nScore each dimension 1-10 and provide specific commentary:\n1. Relevance to my role: Does this speak to my actual priorities and pain points?\n2. Technical credibility: Is it accurate? Does it avoid buzzword-stuffing?\n3. Differentiation: Can I tell how this is different from competitors?\n4. Actionability: Do I know what to do next after reading this?\n5. Trust signals: Does this build or erode my trust? Why?\n6. Language fit: Does this sound like it was written by someone who understands my world?\n</evaluation_framework>\n\n<output_format>\nRespond in this exact JSON structure:\n\x7b\n  \"persona_role\": \"").toList

/-- Literal prompt text after the persona role interpolation
(`ai_backends.py` lines 64-85). -/
def promptPart4 : List Char :=
  ("\",\n  \"overall_score\": <1-10>,\n  \"dimension_scores\": \x7b\n    \"relevance\": \x7b\"score\": <1-10>, \"commentary\": \"...\"\x7d,\n    \"technical_credibility\": \x7b\"score\": <1-10>, \"commentary\": \"...\"\x7d,\n    \"differentiation\": \x7b\"score\": <1-10>, \"commentary\": \"...\"\x7d,\n    \"actionability\": \x7b\"score\": <1-10>, \"commentary\": \"...\"\x7d,\n    \"trust_signals\": \x7b\"score\": <1-10>, \"commentary\": \"...\"\x7d,\n    \"language_fit\": \x7b\"score\": <1-10>, \"commentary\": \"...\"\x7d\n  \x7d,\n  \"top_3_issues\": [\n    \x7b\"issue\": \"...\", \"specific_example_from_content\": \"...\", \"suggested_rewrite\": \"...\"\x7d,\n    \x7b\"issue\": \"...\", \"specific_example_from_content\": \"...\", \"suggested_rewrite\": \"...\"\x7d,\n    \x7b\"issue\": \"...\", \"specific_example_from_content\": \"...\", \"suggested_rewrite\": \"...\"\x7d\n  ],\n  \"what_works_well\": [\"...\", \"...\"],\n  \"overall_verdict\": \"Would I engage further based on this content? Why or why not?\",\n  \"rewritten_headline_suggestion\": \"...\"\n\x7d\n</output_format>\n\nRespond with ONLY the JSON. No markdown code blocks, no explanations, just valid JSON.").toList

/-- `ClaudeCodeBackend._build_prompt` (`ai_backends.py` lines 37-86): the
f-string assembling the prompt, with `document_text[:8000]` embedding
only the first 8000 characters of the document.  The persona profile dump
and the resolved role string are the two other interpolated values. -/
def buildPrompt (persona_profile_json persona_role document_text : List Char) :
    List Char :=
  promptPart1 ++ persona_profile_json ++ promptPart2 ++
    document_text.take 8000 ++ promptPart3 ++ persona_role ++ promptPart4

/-- A unit record carries a stored result payload when any of the three
result columns written by the success path is non-null. -/
def hasResult (a : Analysis) : Bool :=
  a.score_json.isSome || a.top_issues_json.isSome ||
    a.rewritten_suggestions_json.isSome

/-- Unit states reachable through the public operations: creation at job
start, the persisted running transition and the full loop iteration of
`_run_sequential_analyses` on a pending unit, and the persisted reset and
the full try block of `retry_failed_analysis` on a failed unit. -/
inductive ReachableUnit : Analysis → Prop where
  | init (sid pid : String) : ReachableUnit (newAnalysis sid pid)
  | runMid (a : Analysis) (h : a.status = "pending") (hr : ReachableUnit a) :
      ReachableUnit { a with status := "running" }
  | run (o : BackendOutcome) (p : Persona) (a : Analysis)
      (h : a.status = "pending") (hr : ReachableUnit a) :
      ReachableUnit (runUnitStep o a p).1
  | retryMid (a : Analysis) (h : a.status = "failed") (hr : ReachableUnit a) :
      ReachableUnit { a with status := "running", error_message := none }
  | retry (o : BackendOutcome) (a : Analysis) (h : a.status = "failed")
      (hr : ReachableUnit a) : ReachableUnit (retryUnitStep o a)

/-- The state invariant of a unit record: its status is one of the four
lifecycle strings, non-terminal states carry neither result nor error, a
completed unit carries a result and no error, and a failed unit carries
an error and no result. -/
def unitInv (a : Analysis) : Prop :=
  (a.status = "pending" ∨ a.status = "running" ∨
    a.status = "completed" ∨ a.status = "failed") ∧
  (a.status = "pending" → a.error_message = none ∧ hasResult a = false) ∧
  (a.status = "running" → a.error_message = none ∧ hasResult a = false) ∧
  (a.status = "completed" → hasResult a = true ∧ a.error_message = none) ∧
  (a.status = "failed" → (a.error_message).isSome = true ∧ hasResult a = false)

/-! Sample values used by concrete witnesses and counterexamples. -/

/-- A minimal parsed backend response: every optional key absent, the
defaulted keys at their defaults. -/
def emptyResult : EvalResult :=
  { dimension_scores := none, top_3_issues := none, what_works_well := [],
    overall_verdict := "", rewritten_headline_suggestion := "" }

/-- A sample persona profile. -/
def personaP1 : Persona := { id := "p1", name := "P One", profile_json := "pj" }

/-- A backend whose invocation always raises. -/
def errBackend : String → String → BackendOutcome :=
  fun _ _ => BackendOutcome.err ("backend down")

/-- A persona collaborator that resolves no id. -/
def noneResolve : String → Option Persona := fun _ => none

/-- A persona collaborator that resolves only the id p1. -/
def resolveOnlyP1 : String → Option Persona :=
  fun i => if i == "p1" then some personaP1 else none

/-- A sample session record. -/
def sampleSession : SessionModel := { id := "s1", status := "uploaded" }

/-- A sample unit list for the sequential runner. -/
def samplePairs : List (Analysis × Persona) :=
  [(newAnalysis ("s1") ("p1"), personaP1)]

/-- A completed unit record, target of the invalid retry scenario. -/
def completedUnit : Analysis :=
  { session_id := "s1", persona_id := "p1", status := "completed",
    score_json := none, top_issues_json := none,
    rewritten_suggestions_json := some
      { what_works_well := [], overall_verdict := "", rewritten_headline := "" },
    error_message := none, completed_at := none }

/-! Helper lemmas shared by the claim theorems. -/

/-- Both components of one executor iteration end in a terminal status. -/
theorem runUnitStep_statuses (o : BackendOutcome) (a : Analysis) (p : Persona) :
    ((runUnitStep o a p).1.status = "completed" ∨
      (runUnitStep o a p).1.status = "failed") ∧
    ((runUnitStep o a p).2.status = "completed" ∨
      (runUnitStep o a p).2.status = "failed") := by
  cases o <;> simp [runUnitStep]

/-- One executor iteration never changes the persona id of the unit. -/
theorem runUnitStep_persona_id (o : BackendOutcome) (a : Analysis) (p : Persona) :
    (runUnitStep o a p).1.persona_id = a.persona_id := by
  cases o <;> rfl

/-- The unit records returned by the sequential runner are the per-pair
executor results, in input order. -/
theorem runSequentialAnalyses_fst (backend : String → String → BackendOutcome)
    (documentText : String) :
    ∀ pairs : List (Analysis × Persona),
      (runSequentialAnalyses backend pairs documentText).1 =
        pairs.map (fun x => (runUnitStep (backend x.2.profile_json documentText) x.1 x.2).1)
  | [] => rfl
  | (a, p) :: rest => by
      simp [runSequentialAnalyses,
        runSequentialAnalyses_fst backend documentText rest]

/-- The length of a filterMap equals the count of elements mapped to a
value. -/
theorem length_filterMap_eq_countP (f : String → Option Persona) :
    ∀ l : List String,
      (l.filterMap f).length = l.countP (fun i => (f i).isSome)
  | [] => rfl
  | x :: xs => by
      cases h : f x <;>
        simp [List.filterMap_cons, h, List.countP_cons,
          length_filterMap_eq_countP f xs]

/-- Trace of the retry loop against an adapter that times out on the
first k attempts and then succeeds: the loop makes min (k+1) m attempts,
succeeds exactly when k < m, and performs no backoff sleep at all, since
the timeout handler of the source has no sleep call. -/
theorem runAnalysisGo_timeout_then_ok (k m : Nat) (r : EvalResult) :
    ∀ (remaining attempt : Nat) (sleeps : List Nat),
      attempt + remaining = m → attempt ≤ k →
      ((runAnalysisGo (fun i => if i < k then AttemptOutcome.timeout else AttemptOutcome.ok r)
          m remaining attempt sleeps).1.isOk = true ↔ k < m) ∧
      (runAnalysisGo (fun i => if i < k then AttemptOutcome.timeout else AttemptOutcome.ok r)
          m remaining attempt sleeps).2.1 = min (k + 1) m ∧
      (runAnalysisGo (fun i => if i < k then AttemptOutcome.timeout else AttemptOutcome.ok r)
          m remaining attempt sleeps).2.2 = sleeps := by
  intro remaining
  induction remaining with
  | zero =>
      intro attempt sleeps hsum hak
      have hmk : ¬ k < m := by omega
      refine ⟨by simp [runAnalysisGo, Except.isOk, Except.toBool, hmk], ?_, rfl⟩
      simp only [runAnalysisGo]
      omega
  | succ n ih =>
      intro attempt sleeps hsum hak
      by_cases hk : attempt < k
      · by_cases hlast : attempt = m - 1
        · subst hlast
          have hmk : ¬ k < m := by omega
          refine ⟨?_, ?_, ?_⟩
          · simp [runAnalysisGo, hk, Except.isOk, Except.toBool, hmk]
          · simp [runAnalysisGo, hk]
            omega
          · simp [runAnalysisGo, hk]
        · have hred :
              runAnalysisGo (fun i => if i < k then AttemptOutcome.timeout else AttemptOutcome.ok r)
                  m (n + 1) attempt sleeps =
                runAnalysisGo (fun i => if i < k then AttemptOutcome.timeout else AttemptOutcome.ok r)
                  m n (attempt + 1) sleeps := by
            simp [runAnalysisGo, hk, hlast]
          rw [hred]
          exact ih (attempt + 1) sleeps (by omega) (by omega)
      · have hkm : k < m := by omega
        refine ⟨?_, ?_, ?_⟩
        · simp [runAnalysisGo, hk, Except.isOk, Except.toBool, hkm]
        · simp [runAnalysisGo, hk]
          omega
        · simp [runAnalysisGo, hk]

/-- Against an adapter whose every attempt is a parse failure, the retry
loop retries to exhaustion: it makes all m attempts and finally re-raises
the parse error. -/
theorem runAnalysisGo_all_parse (m : Nat) :
    ∀ (remaining attempt : Nat) (sleeps : List Nat),
      attempt + remaining = m → 1 ≤ remaining →
      (runAnalysisGo (fun _ => AttemptOutcome.parseFailure) m remaining attempt sleeps).1 =
        Except.error ("Could not parse JSON response") ∧
      (runAnalysisGo (fun _ => AttemptOutcome.parseFailure) m remaining attempt sleeps).2.1 = m := by
  intro remaining
  induction remaining with
  | zero => intro attempt sleeps _ h1; omega
  | succ n ih =>
      intro attempt sleeps hsum _
      rcases Nat.eq_zero_or_pos n with hn | hn
      · subst hn
        have hlast : attempt = m - 1 := by omega
        refine ⟨by simp [runAnalysisGo, hlast], ?_⟩
        simp [runAnalysisGo, hlast]
        omega
      · have hlast : ¬ attempt = m - 1 := by omega
        have hred :
            runAnalysisGo (fun _ => AttemptOutcome.parseFailure) m (n + 1) attempt sleeps =
              runAnalysisGo (fun _ => AttemptOutcome.parseFailure) m n (attempt + 1)
                (sleeps ++ [2 ^ attempt]) := by
          simp [runAnalysisGo, hlast]
        rw [hred]
        exact ih (attempt + 1) (sleeps ++ [2 ^ attempt]) (by omega) (by omega)

/-! Claim theorems. -/

/-- Claim C2: the unit executor is total.  Each iteration of the
sequential loop is a total function into unit state — the embedding of
the loop body returns updated records instead of raising — and every
unit record and every result entry it returns carries a terminal status,
never running or pending. -/
theorem claim_C2_unit_executor_total (backend : String → String → BackendOutcome)
    (pairs : List (Analysis × Persona)) (documentText : String) :
    (∀ a ∈ (runSequentialAnalyses backend pairs documentText).1,
        a.status = "completed" ∨ a.status = "failed") ∧
    (∀ e ∈ (runSequentialAnalyses backend pairs documentText).2,
        e.status = "completed" ∨ e.status = "failed") := by
  induction pairs with
  | nil => simp [runSequentialAnalyses]
  | cons hd tl ih =>
      obtain ⟨a, p⟩ := hd
      constructor
      · intro x hx
        simp only [runSequentialAnalyses, List.mem_cons] at hx
        rcases hx with rfl | hx
        · exact (runUnitStep_statuses _ _ _).1
        · exact ih.1 x hx
      · intro x hx
        simp only [runSequentialAnalyses, List.mem_cons] at hx
        rcases hx with rfl | hx
        · exact (runUnitStep_statuses _ _ _).2
        · exact ih.2 x hx

/-- Witness for claim C2 at a concrete failing backend and one unit. -/
theorem claim_C2_unit_executor_total_witness :
    (runUnitStep (BackendOutcome.err ("backend down")) (newAnalysis ("s1") ("p1")) personaP1).1.status
        = "completed" ∨
    (runUnitStep (BackendOutcome.err ("backend down")) (newAnalysis ("s1") ("p1")) personaP1).1.status
        = "failed" :=
  (claim_C2_unit_executor_total errBackend samplePairs ("doc")).1 _ (by decide)

/-- Claim C7: the document text embedded in the prompt is exactly the
first 8000 characters, the whole document when its length is at most
8000, the cut is exactly at the configured limit, and the builder is a
total function. -/
theorem claim_C7_document_truncation (pj role doc : List Char) :
    (buildPrompt pj role doc =
      promptPart1 ++ pj ++ promptPart2 ++ doc.take 8000 ++
        promptPart3 ++ role ++ promptPart4) ∧
    (doc.take 8000).length = min 8000 doc.length ∧
    (doc.length ≤ 8000 →
      buildPrompt pj role doc =
        promptPart1 ++ pj ++ promptPart2 ++ doc ++
          promptPart3 ++ role ++ promptPart4) ∧
    doc.take 8000 ++ doc.drop 8000 = doc := by
  refine ⟨rfl, List.length_take 8000 doc, ?_, List.take_append_drop 8000 doc⟩
  intro h
  simp [buildPrompt, List.take_of_length_le h]

/-- Witness for claim C7 at a concrete short document. -/
theorem claim_C7_document_truncation_witness :
    (("short doc").toList.length ≤ 8000) ∧
    buildPrompt [] [] (("short doc").toList) =
      promptPart1 ++ [] ++ promptPart2 ++ ("short doc").toList ++
        promptPart3 ++ [] ++ promptPart4 :=
  ⟨by decide, (claim_C7_document_truncation [] [] (("short doc").toList)).2.2.1 (by decide)⟩

/-- Counterexample to claim C8 as stated: a successful unit run does set
the status to completed, yet leaves the completed_at column null — the
service never writes it, so no timestamp is stamped. -/
theorem claim_C8_completed_at_counterexample :
    ((runUnitStep (BackendOutcome.ok emptyResult) (newAnalysis ("s1") ("p1")) personaP1).1.status
        = "completed") ∧
    ((runUnitStep (BackendOutcome.ok emptyResult) (newAnalysis ("s1") ("p1")) personaP1).1.completed_at
        = none) ∧
    (((runUnitStep (BackendOutcome.ok emptyResult) (newAnalysis ("s1") ("p1")) personaP1).1.completed_at).isSome
        = false) :=
  ⟨rfl, rfl, rfl⟩

/-- Claim C8 as amended: on backend success the executor sets the unit
status to completed and stores the three result columns; the error
column is left unchanged (it is already null on every pre-state that
reaches this path, and the retry path clears it explicitly before the
run, as the last two conjuncts show); completed_at is left unchanged —
it is never stamped. -/
theorem claim_C8_success_postcondition (r : EvalResult) (a : Analysis)
    (p : Persona) :
    ((runUnitStep (BackendOutcome.ok r) a p).1.status = "completed") ∧
    ((runUnitStep (BackendOutcome.ok r) a p).1.score_json = r.dimension_scores) ∧
    ((runUnitStep (BackendOutcome.ok r) a p).1.top_issues_json = r.top_3_issues) ∧
    ((runUnitStep (BackendOutcome.ok r) a p).1.rewritten_suggestions_json = some
      { what_works_well := r.what_works_well,
        overall_verdict := r.overall_verdict,
        rewritten_headline := r.rewritten_headline_suggestion }) ∧
    ((runUnitStep (BackendOutcome.ok r) a p).1.error_message = a.error_message) ∧
    ((runUnitStep (BackendOutcome.ok r) a p).1.completed_at = a.completed_at) ∧
    ((retryUnitStep (BackendOutcome.ok r) a).error_message = none) ∧
    ((retryUnitStep (BackendOutcome.ok r) a).completed_at = a.completed_at) :=
  ⟨rfl, rfl, rfl, rfl, rfl, rfl, rfl, rfl⟩

/-- Counterexample to claim C3 as stated: one timeout then success with
three max attempts makes two attempts, but the sleep trace is empty, not
the claimed list of one backoff sleep of one second — the timeout
handler of the source never sleeps. -/
theorem claim_C3_sleep_trace_counterexample :
    (runAnalysis (fun i => if i < 1 then AttemptOutcome.timeout else AttemptOutcome.ok emptyResult)
        AI_RETRY_ATTEMPTS).2.1 = 2 ∧
    (runAnalysis (fun i => if i < 1 then AttemptOutcome.timeout else AttemptOutcome.ok emptyResult)
        AI_RETRY_ATTEMPTS).2.2 = [] ∧
    ¬ ((runAnalysis (fun i => if i < 1 then AttemptOutcome.timeout else AttemptOutcome.ok emptyResult)
        AI_RETRY_ATTEMPTS).2.2 = [2 ^ 0]) := by
  decide

/-- Claim C3 as amended: with a backend timing out exactly k times then
succeeding and m max attempts, the evaluation succeeds exactly when
k < m and makes min (k+1) m attempts; but the backoff sleep trace is
empty — no sleep is performed between timeout retries, because only the
generic exception handler sleeps. -/
theorem claim_C3_retry_trace (k m : Nat) (r : EvalResult) :
    ((runAnalysis (fun i => if i < k then AttemptOutcome.timeout else AttemptOutcome.ok r) m).1.isOk
        = true ↔ k < m) ∧
    (runAnalysis (fun i => if i < k then AttemptOutcome.timeout else AttemptOutcome.ok r) m).2.1
        = min (k + 1) m ∧
    (runAnalysis (fun i => if i < k then AttemptOutcome.timeout else AttemptOutcome.ok r) m).2.2
        = [] := by
  simpa [runAnalysis] using
    runAnalysisGo_timeout_then_ok k m r m 0 [] (by omega) (by omega)

/-- Witness for claim C3 at two timeouts and the default three attempts. -/
theorem claim_C3_retry_trace_witness :
    ((runAnalysis (fun i => if i < 2 then AttemptOutcome.timeout else AttemptOutcome.ok emptyResult)
        3).1.isOk = true ↔ 2 < 3) ∧
    (runAnalysis (fun i => if i < 2 then AttemptOutcome.timeout else AttemptOutcome.ok emptyResult)
        3).2.1 = min (2 + 1) 3 ∧
    (runAnalysis (fun i => if i < 2 then AttemptOutcome.timeout else AttemptOutcome.ok emptyResult)
        3).2.2 = [] :=
  claim_C3_retry_trace 2 3 emptyResult

/-- Counterexample to claim C4 as stated: a parse failure on the first
attempt is not final — the loop retries it, sleeps the backoff second,
and succeeds on the second attempt. -/
theorem claim_C4_parse_retry_counterexample :
    (runAnalysis (fun i => if i = 0 then AttemptOutcome.parseFailure else AttemptOutcome.ok emptyResult)
        AI_RETRY_ATTEMPTS).1 = Except.ok emptyResult ∧
    (runAnalysis (fun i => if i = 0 then AttemptOutcome.parseFailure else AttemptOutcome.ok emptyResult)
        AI_RETRY_ATTEMPTS).2.1 = 2 ∧
    (runAnalysis (fun i => if i = 0 then AttemptOutcome.parseFailure else AttemptOutcome.ok emptyResult)
        AI_RETRY_ATTEMPTS).2.2 = [1] :=
  ⟨rfl, rfl, rfl⟩

/-- Claim C4 as amended: the retry loop re-attempts after a timeout and
after any exception raised inside an attempt — process failures and
parse failures alike; a parse failure only becomes final when the
attempts are exhausted.  Backend unavailability is raised by the factory
before the loop ever runs, so it is outside this loop and never retried. -/
theorem claim_C4_retry_on_any_attempt_failure (m : Nat) (hm : 2 ≤ m)
    (msg : String) (r : EvalResult) :
    (runAnalysis (fun i => if i = 0 then AttemptOutcome.parseFailure else AttemptOutcome.ok r) m).2.1
        = 2 ∧
    (runAnalysis (fun i => if i = 0 then AttemptOutcome.procFailure msg else AttemptOutcome.ok r) m).2.1
        = 2 ∧
    (runAnalysis (fun i => if i = 0 then AttemptOutcome.timeout else AttemptOutcome.ok r) m).2.1
        = 2 ∧
    (runAnalysis (fun _ => AttemptOutcome.parseFailure) m).1 =
        Except.error ("Could not parse JSON response") ∧
    (runAnalysis (fun _ => AttemptOutcome.parseFailure) m).2.1 = m := by
  obtain ⟨m', rfl⟩ : ∃ m', m = m' + 2 := ⟨m - 2, by omega⟩
  have h01 : ¬ ((0 : Nat) = m' + 2 - 1) := by omega
  refine ⟨?_, ?_, ?_, ?_, ?_⟩
  · simp [runAnalysis, runAnalysisGo, h01]
  · simp [runAnalysis, runAnalysisGo, h01]
  · simp [runAnalysis, runAnalysisGo, h01]
  · exact (runAnalysisGo_all_parse (m' + 2) (m' + 2) 0 [] (by omega) (by omega)).1
  · exact (runAnalysisGo_all_parse (m' + 2) (m' + 2) 0 [] (by omega) (by omega)).2

/-- Witness for claim C4 at the default three max attempts. -/
theorem claim_C4_retry_witness :
    (2 ≤ 3) ∧
    ((runAnalysis (fun i => if i = 0 then AttemptOutcome.parseFailure else AttemptOutcome.ok emptyResult) 3).2.1
        = 2 ∧
     (runAnalysis (fun i => if i = 0 then AttemptOutcome.procFailure ("boom") else AttemptOutcome.ok emptyResult) 3).2.1
        = 2 ∧
     (runAnalysis (fun i => if i = 0 then AttemptOutcome.timeout else AttemptOutcome.ok emptyResult) 3).2.1
        = 2 ∧
     (runAnalysis (fun _ => AttemptOutcome.parseFailure) 3).1 =
        Except.error ("Could not parse JSON response") ∧
     (runAnalysis (fun _ => AttemptOutcome.parseFailure) 3).2.1 = 3) :=
  ⟨by omega, claim_C4_retry_on_any_attempt_failure 3 (by omega) ("boom") emptyResult⟩

/-- Counting entries with a given status exhausts the list exactly when
every entry has that status. -/
theorem countP_status_eq_length_iff (s : String) (results : List ResultEntry) :
    results.countP (fun r => r.status == s) = results.length ↔
      ∀ r ∈ results, r.status = s := by
  rw [List.countP_eq_length]
  simp

/-- Counting entries with a given status gives zero exactly when no entry
has that status. -/
theorem countP_status_eq_zero_iff (s : String) (results : List ResultEntry) :
    results.countP (fun r => r.status == s) = 0 ↔
      ∀ r ∈ results, ¬ r.status = s := by
  rw [List.countP_eq_zero]
  simp

/-- Claim C1: for a nonempty set of terminal result entries, the job
status computed by the orchestrator is completed exactly when every unit
completed, failed exactly when every unit failed, and partial otherwise;
the computation is invariant under permutation of the entries, agrees
with the recomputation done after a unit retry on the same multiset of
statuses, and that recomputation is idempotent. -/
theorem claim_C1_status_aggregation (results : List ResultEntry)
    (hne : results ≠ [])
    (hterm : ∀ r ∈ results, r.status = "completed" ∨ r.status = "failed") :
    (aggregateResults results = "completed" ↔ ∀ r ∈ results, r.status = "completed") ∧
    (aggregateResults results = "failed" ↔ ∀ r ∈ results, r.status = "failed") ∧
    (aggregateResults results = "partial" ↔
      ¬ (∀ r ∈ results, r.status = "completed") ∧
        ¬ (∀ r ∈ results, r.status = "failed")) ∧
    (∀ results2 : List ResultEntry, results.Perm results2 →
      aggregateResults results2 = aggregateResults results) ∧
    (∀ (session : SessionModel) (analyses : List Analysis),
      analyses.map Analysis.status = results.map ResultEntry.status →
      (updateSessionStatus session analyses).status = aggregateResults results) ∧
    (∀ (session : SessionModel) (analyses : List Analysis),
      updateSessionStatus (updateSessionStatus session analyses) analyses =
        updateSessionStatus session analyses) := by
  have hAiff : (∀ r ∈ results, ¬ r.status = "failed") ↔
      (∀ r ∈ results, r.status = "completed") := by
    constructor
    · intro h r hr
      rcases hterm r hr with hc | hf
      · exact hc
      · exact absurd hf (h r hr)
    · intro h r hr
      rw [h r hr]
      decide
  have hperm : ∀ results2 : List ResultEntry, results.Perm results2 →
      aggregateResults results2 = aggregateResults results := by
    intro rs2 hp
    unfold aggregateResults
    rw [← hp.countP_eq, ← hp.length_eq]
  have hidem : ∀ (session : SessionModel) (analyses : List Analysis),
      updateSessionStatus (updateSessionStatus session analyses) analyses =
        updateSessionStatus session analyses := by
    intro s as
    simp only [updateSessionStatus]
    split_ifs <;> rfl
  have hcmp : ∀ (session : SessionModel) (analyses : List Analysis),
      analyses.map Analysis.status = results.map ResultEntry.status →
      (updateSessionStatus session analyses).status = aggregateResults results := by
    intro s as hmap
    have hlen : as.length = results.length := by
      have h := congrArg List.length hmap
      simpa using h
    have hfc : as.countP (fun a => a.status == "failed") =
        results.countP (fun r => r.status == "failed") := by
      have h1 : (as.map Analysis.status).countP (fun x => x == "failed") =
          as.countP (fun a => a.status == "failed") := List.countP_map _ _ _
      have h2 : (results.map ResultEntry.status).countP (fun x => x == "failed") =
          results.countP (fun r => r.status == "failed") := List.countP_map _ _ _
      rw [← h1, ← h2, hmap]
    have hcc : as.countP (fun a => a.status == "completed") =
        results.countP (fun r => r.status == "completed") := by
      have h1 : (as.map Analysis.status).countP (fun x => x == "completed") =
          as.countP (fun a => a.status == "completed") := List.countP_map _ _ _
      have h2 : (results.map ResultEntry.status).countP (fun x => x == "completed") =
          results.countP (fun r => r.status == "completed") := List.countP_map _ _ _
      rw [← h1, ← h2, hmap]
    have hemp : as.isEmpty = false := by
      cases as with
      | nil =>
          exfalso
          have h0 : results.map ResultEntry.status = [] := by simpa using hmap.symm
          exact hne (List.map_eq_nil_iff.mp h0)
      | cons _ _ => rfl
    unfold updateSessionStatus aggregateResults
    simp only [hemp, Bool.false_eq_true, if_false]
    rw [hfc, hcc, hlen]
    by_cases h1 : results.countP (fun r => r.status == "failed") = results.length
    · simp [h1]
    · by_cases h2 : results.countP (fun r => r.status == "failed") > 0
      · simp [h1, h2]
      · have hc0 : results.countP (fun r => r.status == "failed") = 0 := by omega
        have hallc : ∀ r ∈ results, r.status = "completed" :=
          hAiff.mp ((countP_status_eq_zero_iff ("failed") results).mp hc0)
        have hcn : results.countP (fun r => r.status == "completed") = results.length :=
          (countP_status_eq_length_iff ("completed") results).mpr hallc
        simp [h1, h2, hcn]
  have htriple :
      (aggregateResults results = "completed" ↔ ∀ r ∈ results, r.status = "completed") ∧
      (aggregateResults results = "failed" ↔ ∀ r ∈ results, r.status = "failed") ∧
      (aggregateResults results = "partial" ↔
        ¬ (∀ r ∈ results, r.status = "completed") ∧
          ¬ (∀ r ∈ results, r.status = "failed")) := by
    by_cases hkn : results.countP (fun r => r.status == "failed") = results.length
    · have hF := (countP_status_eq_length_iff ("failed") results).mp hkn
      have hnA : ¬ ∀ r ∈ results, r.status = "completed" := by
        obtain ⟨r, hr⟩ := List.exists_mem_of_ne_nil results hne
        intro hA
        have h1 := hA r hr
        have h2 := hF r hr
        rw [h1] at h2
        exact absurd h2 (by decide)
      have hagg : aggregateResults results = "failed" := by
        simp [aggregateResults, hkn]
      rw [hagg]
      refine ⟨⟨fun h => absurd h (by decide), fun h => absurd h hnA⟩,
        iff_of_true rfl hF,
        ⟨fun h => absurd h (by decide), fun h => absurd hF h.2⟩⟩
    · by_cases hk0 : results.countP (fun r => r.status == "failed") = 0
      · have hA := hAiff.mp ((countP_status_eq_zero_iff ("failed") results).mp hk0)
        have hnF : ¬ ∀ r ∈ results, r.status = "failed" :=
          fun hF => hkn ((countP_status_eq_length_iff ("failed") results).mpr hF)
        have hnpos : ¬ results.countP (fun r => r.status == "failed") > 0 := by omega
        have hagg : aggregateResults results = "completed" := by
          simp [aggregateResults, hkn, hnpos]
        rw [hagg]
        refine ⟨iff_of_true rfl hA,
          ⟨fun h => absurd h (by decide), fun h => absurd h hnF⟩,
          ⟨fun h => absurd h (by decide), fun h => absurd hA h.1⟩⟩
      · have hpos : results.countP (fun r => r.status == "failed") > 0 := by omega
        have hnF : ¬ ∀ r ∈ results, r.status = "failed" :=
          fun hF => hkn ((countP_status_eq_length_iff ("failed") results).mpr hF)
        have hnA : ¬ ∀ r ∈ results, r.status = "completed" := by
          intro hA
          exact hk0 ((countP_status_eq_zero_iff ("failed") results).mpr (hAiff.mpr hA))
        have hagg : aggregateResults results = "partial" := by
          simp [aggregateResults, hkn, hpos]
        rw [hagg]
        refine ⟨⟨fun h => absurd h (by decide), fun h => absurd h hnA⟩,
          ⟨fun h => absurd h (by decide), fun h => absurd h hnF⟩,
          iff_of_true rfl ⟨hnA, hnF⟩⟩
  exact ⟨htriple.1, htriple.2.1, htriple.2.2, hperm, hcmp, hidem⟩

/-- A mixed terminal result set: one completed entry, one failed entry. -/
def sampleResults : List ResultEntry :=
  [{ persona_id := "p1", persona_name := "P One", status := "completed",
     result := some emptyResult, error := none },
   { persona_id := "p2", persona_name := "P Two", status := "failed",
     result := none, error := some ("backend down") }]

/-- Witness for claim C1 on the concrete mixed terminal result set. -/
theorem claim_C1_status_aggregation_witness :
    (sampleResults ≠ []) ∧
    (∀ r ∈ sampleResults, r.status = "completed" ∨ r.status = "failed") ∧
    (aggregateResults sampleResults = "partial" ↔
      ¬ (∀ r ∈ sampleResults, r.status = "completed") ∧
        ¬ (∀ r ∈ sampleResults, r.status = "failed")) :=
  ⟨by decide, by decide,
    (claim_C1_status_aggregation sampleResults (by decide) (by decide)).2.2.1⟩

/-- Claim C5: when no selected persona id resolves (in particular for an
empty selection), the job raises the no-valid-personas error, the session
ends failed, and no units are created; when at least one id resolves the
job returns normally — unresolved ids are skipped without error. -/
theorem claim_C5_no_valid_personas (resolve : String → Option Persona)
    (backend : String → String → BackendOutcome) (session : SessionModel)
    (documentText : String) (ids : List String) :
    (ids.filterMap resolve = [] →
      (analyzeDocument resolve backend session documentText ids).outcome =
        Except.error ("No valid personas selected") ∧
      (analyzeDocument resolve backend session documentText ids).session.status = "failed" ∧
      (analyzeDocument resolve backend session documentText ids).analyses = []) ∧
    (ids.filterMap resolve ≠ [] →
      (analyzeDocument resolve backend session documentText ids).outcome.isOk = true) := by
  constructor
  · intro h
    refine ⟨?_, ?_, ?_⟩ <;> simp [analyzeDocument, h]
  · intro h
    cases hl : ids.filterMap resolve with
    | nil => exact absurd hl h
    | cons x xs =>
        simp [analyzeDocument, hl, Except.isOk, Except.toBool]

/-- Witness for claim C5: a single unresolvable id. -/
theorem claim_C5_no_valid_personas_witness :
    ((["pX"] : List String).filterMap noneResolve = []) ∧
    ((analyzeDocument noneResolve errBackend sampleSession ("doc") ["pX"]).outcome =
        Except.error ("No valid personas selected") ∧
      (analyzeDocument noneResolve errBackend sampleSession ("doc") ["pX"]).session.status
        = "failed" ∧
      (analyzeDocument noneResolve errBackend sampleSession ("doc") ["pX"]).analyses = []) :=
  ⟨by decide,
    (claim_C5_no_valid_personas noneResolve errBackend sampleSession ("doc") ["pX"]).1
      (by decide)⟩

/-- Claim C6: retrying a unit whose status is not failed raises the
invalid-state error and leaves the session and every unit record — its
status, result columns and error column — unchanged; from a failed unit
with a resolvable persona the retry proceeds and returns a result entry
instead of an error. -/
theorem claim_C6_retry_precondition (resolve : String → Option Persona)
    (backend : String → String → BackendOutcome) (session : SessionModel)
    (analyses : List Analysis) (persona_id documentText : String) (a : Analysis)
    (hfind : analyses.find? (analysisMatch session.id persona_id) = some a) :
    (a.status ≠ "failed" →
      retryFailedAnalysis resolve backend session analyses persona_id documentText =
        (session, analyses, Except.error ("Analysis is not in failed state"))) ∧
    (a.status = "failed" → ∀ p, resolve persona_id = some p →
      ((retryFailedAnalysis resolve backend session analyses persona_id documentText).2.2).isOk
        = true) := by
  constructor
  · intro h
    simp [retryFailedAnalysis, hfind, h]
  · intro h p hp
    rcases hb : backend p.profile_json documentText with r | e <;>
      simp [retryFailedAnalysis, hfind, h, hp, hb, Except.isOk, Except.toBool]

/-- Witness for claim C6: retry attempted on a completed unit. -/
theorem claim_C6_retry_precondition_witness :
    ([completedUnit].find? (analysisMatch sampleSession.id ("p1")) = some completedUnit) ∧
    (completedUnit.status ≠ "failed") ∧
    retryFailedAnalysis noneResolve errBackend sampleSession [completedUnit] ("p1") ("doc") =
      (sampleSession, [completedUnit], Except.error ("Analysis is not in failed state")) :=
  ⟨by decide, by decide,
    (claim_C6_retry_precondition noneResolve errBackend sampleSession [completedUnit]
      ("p1") ("doc") completedUnit (by decide)).1 (by decide)⟩

/-- Claim C10: each occurrence of a resolvable persona id — duplicates
included — yields one unit: the unit count equals the count of
resolvable entries of the input list, and the units carry the persona
ids in input-list order. -/
theorem claim_C10_duplicate_personas (resolve : String → Option Persona)
    (backend : String → String → BackendOutcome) (session : SessionModel)
    (documentText : String) (ids : List String)
    (hne : ids.filterMap resolve ≠ []) :
    (analyzeDocument resolve backend session documentText ids).analyses.length =
      (ids.filterMap resolve).length ∧
    (ids.filterMap resolve).length = ids.countP (fun i => (resolve i).isSome) ∧
    (analyzeDocument resolve backend session documentText ids).analyses.map Analysis.persona_id =
      (ids.filterMap resolve).map Persona.id := by
  cases hl : ids.filterMap resolve with
  | nil => exact absurd hl hne
  | cons x xs =>
      refine ⟨?_, ?_, ?_⟩
      · simp [analyzeDocument, hl, runSequentialAnalyses_fst, List.length_map]
      · rw [← hl]
        exact length_filterMap_eq_countP resolve ids
      · simp [analyzeDocument, hl, runSequentialAnalyses_fst, List.map_map,
          runUnitStep_persona_id, newAnalysis]

/-- Witness for claim C10: the id p1 selected twice plus one unresolvable
id gives exactly two units, in order. -/
theorem claim_C10_duplicate_personas_witness :
    ((["p1", "p1", "zz"] : List String).filterMap resolveOnlyP1 ≠ []) ∧
    ((analyzeDocument resolveOnlyP1 errBackend sampleSession ("doc")
        ["p1", "p1", "zz"]).analyses.length =
      ((["p1", "p1", "zz"] : List String).filterMap resolveOnlyP1).length ∧
    ((["p1", "p1", "zz"] : List String).filterMap resolveOnlyP1).length =
      (["p1", "p1", "zz"] : List String).countP (fun i => (resolveOnlyP1 i).isSome) ∧
    (analyzeDocument resolveOnlyP1 errBackend sampleSession ("doc")
        ["p1", "p1", "zz"]).analyses.map Analysis.persona_id =
      ((["p1", "p1", "zz"] : List String).filterMap resolveOnlyP1).map Persona.id) :=
  ⟨by decide,
    claim_C10_duplicate_personas resolveOnlyP1 errBackend sampleSession ("doc")
      (["p1", "p1", "zz"]) (by decide)⟩

/-- Elements of a first-match replacement are old elements or the new
value. -/
theorem setFirst_mem (p : Analysis → Bool) (v x : Analysis) :
    ∀ l : List Analysis, x ∈ setFirst p v l → x ∈ l ∨ x = v
  | [] => fun h => absurd h (List.not_mem_nil x)
  | y :: ys => fun h => by
      by_cases hy : p y
      · simp only [setFirst, hy, if_true, List.mem_cons] at h
        rcases h with rfl | h
        · exact Or.inr rfl
        · exact Or.inl (List.mem_cons_of_mem y h)
      · simp only [setFirst, hy, if_false, Bool.false_eq_true, List.mem_cons] at h
        rcases h with rfl | h
        · exact Or.inl (List.mem_cons_self x ys)
        · rcases setFirst_mem p v x ys h with h2 | h2
          · exact Or.inl (List.mem_cons_of_mem y h2)
          · exact Or.inr h2

/-- Every reachable unit state satisfies the lifecycle invariant. -/
theorem reachableUnit_inv : ∀ a : Analysis, ReachableUnit a → unitInv a := by
  intro a h
  induction h with
  | init sid pid =>
      refine ⟨Or.inl rfl, fun _ => ⟨rfl, rfl⟩, ?_, ?_, ?_⟩ <;>
        · intro h2
          simp [newAnalysis] at h2
  | runMid a h hr ih =>
      obtain ⟨hs, hp, hrn, hc, hf⟩ := ih
      obtain ⟨he, hres⟩ := hp h
      refine ⟨Or.inr (Or.inl rfl), ?_, fun _ => ⟨he, hres⟩, ?_, ?_⟩ <;>
        · intro h2
          simp at h2
  | run o p a h hr ih =>
      obtain ⟨hs, hp, hrn, hc, hf⟩ := ih
      obtain ⟨he, hres⟩ := hp h
      cases o with
      | ok r =>
          refine ⟨Or.inr (Or.inr (Or.inl rfl)), ?_, ?_,
            fun _ => ⟨by simp [runUnitStep, hasResult], he⟩, ?_⟩ <;>
            · intro h2
              simp [runUnitStep] at h2
      | err e =>
          refine ⟨Or.inr (Or.inr (Or.inr rfl)), ?_, ?_, ?_,
            fun _ => ⟨rfl, hres⟩⟩ <;>
            · intro h2
              simp [runUnitStep] at h2
  | retryMid a h hr ih =>
      obtain ⟨hs, hp, hrn, hc, hf⟩ := ih
      obtain ⟨hse, hres⟩ := hf h
      refine ⟨Or.inr (Or.inl rfl), ?_, fun _ => ⟨rfl, hres⟩, ?_, ?_⟩ <;>
        · intro h2
          simp at h2
  | retry o a h hr ih =>
      obtain ⟨hs, hp, hrn, hc, hf⟩ := ih
      obtain ⟨hse, hres⟩ := hf h
      cases o with
      | ok r =>
          refine ⟨Or.inr (Or.inr (Or.inl rfl)), ?_, ?_,
            fun _ => ⟨by simp [retryUnitStep, hasResult], rfl⟩, ?_⟩ <;>
            · intro h2
              simp [retryUnitStep] at h2
      | err e =>
          refine ⟨Or.inr (Or.inr (Or.inr rfl)), ?_, ?_, ?_,
            fun _ => ⟨rfl, hres⟩⟩ <;>
            · intro h2
              simp [retryUnitStep] at h2

/-- Claim C9: in every unit state reachable through the public
operations, the stored result payload and the stored error message are
never both present; a completed unit carries a result and no error, and
a failed unit carries an error and no result.  The last two conjuncts
tie reachability to the public operations: every unit produced by a job
run is reachable, and the retry operation maps reachable unit sets to
reachable unit sets. -/
theorem claim_C9_result_error_exclusive :
    (∀ a : Analysis, ReachableUnit a →
      (¬ (hasResult a = true ∧ (a.error_message).isSome = true)) ∧
      (a.status = "completed" → hasResult a = true ∧ a.error_message = none) ∧
      (a.status = "failed" → (a.error_message).isSome = true ∧ hasResult a = false)) ∧
    (∀ (resolve : String → Option Persona) (backend : String → String → BackendOutcome)
        (session : SessionModel) (documentText : String) (ids : List String),
      ∀ a ∈ (analyzeDocument resolve backend session documentText ids).analyses,
        ReachableUnit a) ∧
    (∀ (resolve : String → Option Persona) (backend : String → String → BackendOutcome)
        (session : SessionModel) (analyses : List Analysis) (pid documentText : String),
      (∀ a ∈ analyses, ReachableUnit a) →
      ∀ a ∈ (retryFailedAnalysis resolve backend session analyses pid documentText).2.1,
        ReachableUnit a) := by
  refine ⟨?_, ?_, ?_⟩
  · intro a h
    obtain ⟨hs, hp, hrn, hc, hf⟩ := reachableUnit_inv a h
    refine ⟨?_, hc, hf⟩
    rintro ⟨h1, h2⟩
    rcases hs with hst | hst | hst | hst
    · rw [(hp hst).2] at h1
      exact absurd h1 (by decide)
    · rw [(hrn hst).2] at h1
      exact absurd h1 (by decide)
    · rw [(hc hst).2] at h2
      exact absurd h2 (by decide)
    · rw [(hf hst).2] at h1
      exact absurd h1 (by decide)
  · intro resolve backend session documentText ids a ha
    cases hl : ids.filterMap resolve with
    | nil => simp [analyzeDocument, hl] at ha
    | cons x xs =>
        simp only [analyzeDocument, hl, List.isEmpty_cons, Bool.false_eq_true,
          if_false] at ha
        rw [runSequentialAnalyses_fst] at ha
        simp only [List.map_map, List.mem_map, Function.comp] at ha
        obtain ⟨p, hp, rfl⟩ := ha
        exact ReachableUnit.run _ p _ rfl (ReachableUnit.init _ _)
  · intro resolve backend session analyses pid documentText hall a ha
    rcases hfind : analyses.find? (analysisMatch session.id pid) with _ | a0
    · simp only [retryFailedAnalysis, hfind] at ha
      exact hall a ha
    · by_cases hst : a0.status = "failed"
      · rcases hres : resolve pid with _ | p
        · simp [retryFailedAnalysis, hfind, hst, hres] at ha
          exact hall a ha
        · have hr0 : ReachableUnit a0 := hall a0 (List.mem_of_find?_eq_some hfind)
          cases hb : backend p.profile_json documentText with
          | ok r =>
              simp [retryFailedAnalysis, hfind, hst, hres, hb] at ha
              rcases setFirst_mem _ _ a analyses ha with hmem | rfl
              · exact hall a hmem
              · exact ReachableUnit.retry _ a0 hst hr0
          | err e =>
              simp [retryFailedAnalysis, hfind, hst, hres, hb] at ha
              rcases setFirst_mem _ _ a analyses ha with hmem | rfl
              · exact hall a hmem
              · exact ReachableUnit.retry _ a0 hst hr0
      · simp [retryFailedAnalysis, hfind, hst] at ha
        exact hall a ha

/-- Witness for claim C9 at a concrete reachable failed unit. -/
theorem claim_C9_result_error_exclusive_witness :
    ¬ (hasResult (runUnitStep (BackendOutcome.err ("backend down"))
          (newAnalysis ("s1") ("p1")) personaP1).1 = true ∧
       (((runUnitStep (BackendOutcome.err ("backend down"))
          (newAnalysis ("s1") ("p1")) personaP1).1).error_message).isSome = true) :=
  (claim_C9_result_error_exclusive.1 _
    (ReachableUnit.run (BackendOutcome.err ("backend down")) personaP1
      (newAnalysis ("s1") ("p1")) rfl (ReachableUnit.init ("s1") ("p1")))).1

end Roundtable
